import Mathlib

/-!
Verification of the conversation-state model of the "Telegram Clone" chat
application.  The repository contains two parallel implementations of the
same design:

* `src/app/routes/chat.tsx` — the route component, with a tri-state
  `status : sent | delivered | read` marker on messages and a separate
  `Record<string, Message[]>` message store keyed by chat id.  It is
  embedded below in namespace `Routes`.
* `src/unnamed/part_000` — a standalone `ChatApp` component, with a boolean
  `isRead` marker and messages embedded in each chat object.  It is
  embedded below in namespace `P000`.

The embedding is shallow: each React state update function becomes a pure
function on an explicit state record, and the asynchronous simulated reply
(`setTimeout` / awaited promise) is split into a send step, which returns
the data captured by the reply closure (a `Pending` value), and a resolve
step, which is applied to whatever state holds when the delay fires.
Random choices (reply selection) and clock reads (`Date.now()`) are passed
in as explicit parameters.  JavaScript `number` timestamps are embedded as
`Int` (milliseconds since the epoch); unread counters as `Nat`.
-/

/-- Message provenance tag: the `sender` field of a message. -/
inductive Sender where
  | user
  | ai
  | contact
deriving DecidableEq, Repr

/-- Chat kind: the `type` field of a chat, deciding whether sends trigger
the reply simulator. -/
inductive CType where
  | ai
  | contact
deriving DecidableEq, Repr

/-- Tri-state delivery marker used by the `Routes` implementation. -/
inductive MStatus where
  | sent
  | delivered
  | read
deriving DecidableEq, Repr

/-- Model of JavaScript `String.prototype.toLowerCase` (character-wise
simple lowercasing; all strings occurring in this program are ASCII, where
this agrees with the JS method).  Defined through `String.data` so that the
kernel can evaluate it on literals. -/
def jsToLower (s : String) : String := String.mk (s.data.map Char.toLower)

/-- Model of JavaScript `String.prototype.trim` (strip leading and trailing
whitespace). -/
def jsTrim (s : String) : String :=
  String.mk (((s.data.dropWhile Char.isWhitespace).reverse.dropWhile Char.isWhitespace).reverse)

/-- Substring search on character lists: `true` iff `needle` occurs
contiguously inside `hay`. -/
def includesAux (needle : List Char) : List Char → Bool
  | [] => needle.isPrefixOf []
  | c :: rest => needle.isPrefixOf (c :: rest) || includesAux needle rest

/-- Model of JavaScript `String.prototype.includes`: `jsIncludes s needle`
is `true` iff `needle` is a contiguous substring of `s`. -/
def jsIncludes (s needle : String) : Bool := includesAux needle.data s.data

theorem includesAux_iff_infix (needle hay : List Char) :
    includesAux needle hay = true ↔ needle <:+: hay := by
  induction hay with
  | nil => simp [includesAux, List.isPrefixOf_iff_prefix, List.prefix_nil, List.infix_nil]
  | cons c rest ih => simp [includesAux, List.isPrefixOf_iff_prefix, List.infix_cons_iff, ih]

theorem jsIncludes_iff (s needle : String) :
    jsIncludes s needle = true ↔ ∃ pre post, pre ++ needle.data ++ post = s.data := by
  rw [jsIncludes, includesAux_iff_infix]
  exact Iff.rfl

theorem jsIncludes_empty_needle (s : String) : jsIncludes s "" = true := by
  rw [jsIncludes_iff]
  exact ⟨[], s.data, by simp⟩

/-- Mapping a function that moves no element of the list is the identity. -/
theorem list_map_eq_self {α : Type} (f : α → α) (l : List α) (h : ∀ a ∈ l, f a = a) :
    l.map f = l := by
  induction l with
  | nil => rfl
  | cons a rest ih =>
    simp only [List.map_cons, h a (List.mem_cons_self a rest)]
    rw [ih fun x hx => h x (List.mem_cons_of_mem a hx)]

/-- Pointwise description of a `List.map`: handy for frame conditions. -/
theorem forall₂_map_left {α β : Type} (R : β → α → Prop) (g : α → β) (l : List α)
    (h : ∀ a ∈ l, R (g a) a) : List.Forall₂ R (l.map g) l := by
  rw [List.forall₂_map_left_iff, List.forall₂_same]
  exact h

/-- JSON-like document tree, the image of `JSON.stringify` and the result of
`JSON.parse`.  The constructor `jtime ms` stands for a JSON *string* whose
text is the ISO-8601 rendering (with millisecond precision) of instant
`ms`, i.e. the output of `Date.prototype.toJSON`; this models the platform
facts that the ISO text determines the instant exactly to the millisecond
and that `new Date` applied to such text returns that instant. -/
inductive JValue where
  | jnull
  | jbool (b : Bool)
  | jnum (n : Int)
  | jstr (s : String)
  | jtime (ms : Int)
  | jarr (elems : List JValue)
  | jobj (fields : List (String × JValue))
deriving Repr

/-- Model of the JavaScript test `typeof v === "string"`: ISO-8601 date
text (`jtime`) is an ordinary string at runtime. -/
def JValue.isStringValue : JValue → Bool
  | .jstr _ => true
  | .jtime _ => true
  | _ => false

/-- Exceptions this program can hit: `JSON.parse` on malformed text raises
a `SyntaxError`; calling array methods on non-arrays raises a `TypeError`. -/
inductive JSError where
  | syntaxError
  | typeError
deriving DecidableEq, Repr

/-- The content of a `localStorage` slot, abstracted by how the loading code
can distinguish it: the key can be `absent` (`getItem` returns `null`), hold
the `empty` string (falsy in JS), hold non-empty text that `JSON.parse`
rejects (`malformed`), or hold non-empty text that parses to a JSON
document (`wellFormed`). -/
inductive StoredValue where
  | absent
  | empty
  | malformed
  | wellFormed (v : JValue)
deriving Repr

/-- Field lookup on a parsed JSON object (JavaScript property access). -/
def jGet : JValue → String → Option JValue
  | .jobj fields, k => (fields.find? fun f => f.1 == k).map (·.2)
  | _, _ => none

/-- Model of JavaScript record indexing `m[k]` on a string-keyed record. -/
def recGet {α : Type} (m : List (String × α)) (k : String) : Option α :=
  (m.find? fun e => e.1 == k).map (·.2)

/-- Model of the JavaScript record update `\x7b...m, [k]: v\x7d`: an existing
key keeps its position and gets the new value; a fresh key is appended. -/
def recSet {α : Type} (m : List (String × α)) (k : String) (v : α) : List (String × α) :=
  if m.any fun e => e.1 == k then
    m.map fun e => if e.1 == k then (k, v) else e
  else
    m ++ [(k, v)]

theorem recGet_map_upd_self {α : Type} (m : List (String × α)) (k : String) (v : α)
    (h : (m.any fun e => e.1 == k) = true) :
    recGet (m.map fun e => if e.1 == k then (k, v) else e) k = some v := by
  induction m with
  | nil => simp at h
  | cons e rest ih =>
    by_cases he : (e.1 == k) = true
    · simp [recGet, List.find?, he]
    · simp only [List.any_cons, he, Bool.false_or] at h
      simpa [recGet, List.find?, he] using ih h

theorem recGet_map_upd_ne {α : Type} (m : List (String × α)) (k k' : String) (v : α)
    (h : k' ≠ k) :
    recGet (m.map fun e => if e.1 == k then (k, v) else e) k' = recGet m k' := by
  have hbne : (k == k') = false := by simpa [beq_iff_eq] using fun he => h he.symm
  induction m with
  | nil => rfl
  | cons e rest ih =>
    cases he : (e.1 == k) with
    | true =>
      have he' : e.1 = k := by simpa [beq_iff_eq] using he
      have hne2 : (e.1 == k') = false := by rw [he']; exact hbne
      simp only [List.map_cons, he, if_true]
      simp only [recGet, List.find?, hbne, hne2]
      exact ih
    | false =>
      cases he2 : (e.1 == k') with
      | true => simp [recGet, List.find?, he, he2]
      | false =>
        simp only [List.map_cons, he, Bool.false_eq_true, if_false]
        simp only [recGet, List.find?, he2]
        exact ih

theorem recGet_append_single_self {α : Type} (m : List (String × α)) (k : String) (v : α)
    (h : (m.any fun e => e.1 == k) = false) :
    recGet (m ++ [(k, v)]) k = some v := by
  induction m with
  | nil => simp [recGet, List.find?]
  | cons e rest ih =>
    simp only [List.any_cons, Bool.or_eq_false_iff] at h
    simp only [List.cons_append]
    simpa [recGet, List.find?, h.1] using ih h.2

theorem recGet_append_single_ne {α : Type} (m : List (String × α)) (k k' : String) (v : α)
    (h : k' ≠ k) : recGet (m ++ [(k, v)]) k' = recGet m k' := by
  have hbne : (k == k') = false := by simpa [beq_iff_eq] using fun he => h he.symm
  induction m with
  | nil => simp [recGet, List.find?, hbne]
  | cons e rest ih =>
    cases he2 : (e.1 == k') with
    | true => simp [recGet, List.find?, he2]
    | false =>
      simp only [List.cons_append]
      simp only [recGet, List.find?, he2]
      exact ih

theorem recGet_recSet_self {α : Type} (m : List (String × α)) (k : String) (v : α) :
    recGet (recSet m k v) k = some v := by
  rw [recSet]
  split
  · exact recGet_map_upd_self m k v (by assumption)
  · next hany => exact recGet_append_single_self m k v (Bool.not_eq_true _ ▸ hany)

theorem recGet_recSet_ne {α : Type} (m : List (String × α)) (k k' : String) (v : α)
    (h : k' ≠ k) : recGet (recSet m k v) k' = recGet m k' := by
  rw [recSet]
  split
  · exact recGet_map_upd_ne m k k' v h
  · exact recGet_append_single_ne m k k' v h

namespace P000

/-! Embedding of the `ChatApp` component in `src/unnamed/part_000`. -/

/-- The `Message` interface of part_000: boolean read marker, `Date`
timestamp embedded as milliseconds. -/
structure Message where
  id : String
  text : String
  timestamp : Int
  sender : Sender
  isRead : Bool
deriving DecidableEq, Repr

/-- The `Chat` interface of part_000: messages are embedded in the chat. -/
structure Chat where
  id : String
  name : String
  type : CType
  avatar : String
  lastMessage : Option Message
  messages : List Message
  isOnline : Bool
  unreadCount : Nat
deriving DecidableEq, Repr

/-- The seed data `mockChats`, parameterized by the load instant `t0`
(the source computes timestamps as offsets from `Date.now()`).  The seed
literals carry no `lastMessage` field. -/
def mockChats (t0 : Int) : List Chat :=
  [ { id := "1", name := "AI Assistant", type := .ai, avatar := "🤖",
      isOnline := true, unreadCount := 0, lastMessage := none,
      messages := [
        { id := "1",
          text := "Hello! I\x27m your AI assistant. How can I help you today?",
          timestamp := t0 - 60000, sender := .ai, isRead := true } ] },
    { id := "2", name := "ChatGPT", type := .ai, avatar := "🧠",
      isOnline := true, unreadCount := 2, lastMessage := none,
      messages := [
        { id := "2",
          text := "I can help you with coding, writing, analysis, and much more!",
          timestamp := t0 - 120000, sender := .ai, isRead := false } ] },
    { id := "3", name := "John Doe", type := .contact, avatar := "👨",
      isOnline := false, unreadCount := 1, lastMessage := none,
      messages := [
        { id := "3", text := "Hey, how are you doing?",
          timestamp := t0 - 300000, sender := .contact, isRead := false } ] },
    { id := "4", name := "Jane Smith", type := .contact, avatar := "👩",
      isOnline := true, unreadCount := 0, lastMessage := none,
      messages := [
        { id := "4", text := "Thanks for your help with the project!",
          timestamp := t0 - 3600000, sender := .contact, isRead := true } ] } ]

/-- The component state of `ChatApp` that the conversation model touches:
the chat list, the selected chat id (`activeChat`), and the compose-box
text (`newMessage`), which `sendMessage` reads and clears.  Presentational
state (`searchQuery` is passed to `filteredChats` as an argument here;
`isTyping` is a spinner flag) is not part of the conversation model. -/
structure AppState where
  chats : List Chat
  activeChat : Option String
  newMessage : String
deriving DecidableEq, Repr

/-- `markAsRead` from part_000: zero the unread counter of the chat with
the given id and flip `isRead` on every one of its messages. -/
def markAsRead (chatId : String) (chats : List Chat) : List Chat :=
  chats.map fun chat =>
    if chat.id == chatId then
      { chat with unreadCount := 0,
                  messages := chat.messages.map fun msg => { msg with isRead := true } }
    else chat

/-- The chat-list click handler of part_000: `setActiveChat(chat.id)`
followed by `markAsRead(chat.id)`. -/
def selectChat (chatId : String) (st : AppState) : AppState :=
  { st with activeChat := some chatId, chats := markAsRead chatId st.chats }

/-- The canned reply pool of `generateAIResponse` in part_000. -/
def responses : List String :=
  [ "That\x27s an interesting question! Let me think about that...",
    "I understand what you\x27re asking. Here\x27s my perspective:",
    "Great point! I can help you with that.",
    "Thanks for sharing that with me. Here\x27s what I think:",
    "I see what you mean. Let me provide some insights:",
    "That\x27s a thoughtful question. Here\x27s how I\x27d approach it:",
    "Interesting! I\x27d be happy to help you explore that further.",
    "I appreciate you asking. Here\x27s my take on it:" ]

/-- `generateAIResponse` from part_000: picks a random pool entry (the
random draw `Math.floor(Math.random() * responses.length)` is modeled by
the parameter `r`, reduced modulo the pool size); the user message is
ignored. -/
def generateAIResponse (_userMessage : String) (r : Nat) : String :=
  (responses.get? (r % responses.length)).getD ""

/-- The data captured by the `setTimeout` closure in part_000's
`sendMessage`: the chat id active at send time and the compose-box text
(used by `generateAIResponse` at resolution). -/
structure Pending where
  chatId : String
  userText : String
deriving DecidableEq, Repr

/-- `sendMessage` from part_000.  Guard: `!newMessage.trim() || !activeChat`
is a no-op.  Otherwise a user message (id and timestamp from `Date.now()`,
here the parameter `now`) is appended to the active chat, the compose box
is cleared, and, when the active chat's `type` is `ai`, a reply is
scheduled (returned as `some` pending value). -/
def sendMessage (now : Int) (st : AppState) : AppState × Option Pending :=
  match st.activeChat with
  | none => (st, none)
  | some active =>
    if jsTrim st.newMessage == "" then (st, none)
    else
      let message : Message :=
        { id := toString now, text := st.newMessage, timestamp := now,
          sender := .user, isRead := true }
      let chats := st.chats.map fun chat =>
        if chat.id == active then { chat with messages := chat.messages ++ [message] }
        else chat
      let pending : Option Pending :=
        match st.chats.find? fun c => c.id == active with
        | some chat =>
          if chat.type == CType.ai then some { chatId := active, userText := st.newMessage }
          else none
        | none => none
      ({ st with chats := chats, newMessage := "" }, pending)

/-- The reply message built when the timeout fires: id
`(Date.now() + 1).toString()` and timestamp `new Date()` at resolution
time `resolveNow`; created with `isRead := true`. -/
def mkAiReply (resolveNow : Int) (r : Nat) (p : Pending) : Message :=
  { id := toString (resolveNow + 1), text := generateAIResponse p.userText r,
    timestamp := resolveNow, sender := .ai, isRead := true }

/-- The body of the `setTimeout` callback in part_000's `sendMessage`:
append the generated reply to the chat whose id was captured at send time.
The state it runs against is whatever state holds at resolution time. -/
def resolveReply (resolveNow : Int) (r : Nat) (p : Pending) (st : AppState) : AppState :=
  { st with chats := st.chats.map fun c =>
      if c.id == p.chatId then { c with messages := c.messages ++ [mkAiReply resolveNow r p] }
      else c }

/-- `createNewChat` from part_000: prepend a fresh chat and select it. -/
def createNewChat (now : Int) (ty : CType) (st : AppState) : AppState :=
  let newChat : Chat :=
    { id := toString now,
      name := if ty == CType.ai then "New AI Assistant" else "New Contact",
      type := ty,
      avatar := if ty == CType.ai then "🤖" else "👤",
      isOnline := true, unreadCount := 0, messages := [], lastMessage := none }
  { st with chats := newChat :: st.chats, activeChat := some newChat.id }

/-- The mount-time effect (empty dependency array) that recomputes each
chat's `lastMessage` as `messages[messages.length - 1]`.  It runs exactly
once, when the component mounts. -/
def updateLastMessages (chats : List Chat) : List Chat :=
  chats.map fun chat => { chat with lastMessage := chat.messages.getLast? }

/-- The `filteredChats` computation of part_000: case-insensitive substring
match of the query against each chat name, by `Array.prototype.filter`. -/
def filteredChats (query : String) (chats : List Chat) : List Chat :=
  chats.filter fun chat => jsIncludes (jsToLower chat.name) (jsToLower query)

end P000

namespace Routes

/-! Embedding of the route component in `src/app/routes/chat.tsx`. -/

/-- The `Message` interface of the routes implementation. -/
structure Message where
  id : String
  text : String
  sender : Sender
  timestamp : Int
  status : MStatus
deriving DecidableEq, Repr

/-- The `Chat` interface of the routes implementation: messages live in a
separate record, chats only cache an optional `lastMessage`. -/
structure Chat where
  id : String
  name : String
  type : CType
  avatar : String
  lastMessage : Option Message
  unreadCount : Nat
  isOnline : Bool
deriving DecidableEq, Repr

/-- The seed `mockChats` of the routes implementation (avatar strings are
copied byte-for-byte from the source file). -/
def mockChats : List Chat :=
  [ { id := "1", name := "AI Assistant", type := .ai, avatar := "ü§ñ",
      unreadCount := 0, isOnline := true, lastMessage := none },
    { id := "2", name := "John Doe", type := .contact, avatar := "üë®‚Äçüíº",
      unreadCount := 2, isOnline := true, lastMessage := none },
    { id := "3", name := "Jane Smith", type := .contact, avatar := "üë©‚Äçüíª",
      unreadCount := 0, isOnline := false, lastMessage := none } ]

/-- The component state of `Chat()` that the conversation model touches:
chat list, active chat id, and the message store keyed by chat id.
(`searchQuery` is passed to `filteredChats` as an argument here; the
typing spinner and mobile-layout flags are presentational.) -/
structure State where
  chats : List Chat
  activeChat : Option String
  messages : List (String × List Message)
deriving DecidableEq, Repr

/-- The initial state: `useState(mockChats)`, no active chat, empty
message record (before the load effect runs). -/
def initState : State :=
  { chats := mockChats, activeChat := none, messages := [] }

/-- `handleChatSelect` from chat.tsx: set the active chat, mark every
non-user message of that chat read, and zero the chat's unread counter.
The id is not checked for existence. -/
def handleChatSelect (chatId : String) (st : State) : State :=
  let chatMessages := (recGet st.messages chatId).getD []
  let updatedMessages := chatMessages.map fun msg =>
    if msg.sender != Sender.user then { msg with status := .read } else msg
  { st with
    activeChat := some chatId,
    messages := recSet st.messages chatId updatedMessages,
    chats := st.chats.map fun chat =>
      if chat.id == chatId then { chat with unreadCount := 0 } else chat }

/-- The canned pool of `getAIResponse` in chat.tsx. -/
def responses : List String :=
  [ "That\x27s an interesting question! Let me think about it...",
    "I understand what you\x27re asking. Here\x27s my perspective:",
    "Great point! Based on what you\x27ve shared, I\x27d suggest:",
    "Thanks for sharing that with me. Here\x27s what I think:",
    "I appreciate you bringing this up. My analysis is:",
    "That\x27s a complex topic. Let me break it down for you:" ]

/-- The reply text of `getAIResponse` in chat.tsx: a random pool entry (the
random draw is modeled by the parameter `r` modulo the pool size), followed
by a greeting clause when the lowercased input contains "hello", else a
generic filler clause. -/
def getAIResponseText (message : String) (r : Nat) : String :=
  ((responses.get? (r % responses.length)).getD "") ++ " " ++
    (if jsIncludes (jsToLower message) "hello" then
      "Hello there! How can I help you today?"
    else
      "This is a simulated AI response to demonstrate the chat functionality.")

/-- The data captured by the awaited continuation in `handleSendMessage`:
the chat id active at send time, the user message object just built, and
the sent text (passed to `getAIResponse`). -/
structure Pending where
  chatId : String
  userMsg : Message
  text : String
deriving DecidableEq, Repr

/-- `handleSendMessage` from chat.tsx.  Requires only an active chat (there
is no blank-text check here; the caller performs it).  Appends the new user
message to the active chat's store entry, caches it as the chat's
`lastMessage`, and, when the active chat's `type` is `ai`, schedules a
reply (returned as `some` pending value). -/
def handleSendMessage (now : Int) (text : String) (st : State) : State × Option Pending :=
  match st.activeChat with
  | none => (st, none)
  | some active =>
    let newMessage : Message :=
      { id := toString now, text := text, sender := .user, timestamp := now,
        status := .sent }
    let messages := recSet st.messages active
      ((recGet st.messages active).getD [] ++ [newMessage])
    let chats := st.chats.map fun chat =>
      if chat.id == active then { chat with lastMessage := some newMessage } else chat
    let pending : Option Pending :=
      match st.chats.find? fun c => c.id == active with
      | some chat =>
        if chat.type == CType.ai then
          some { chatId := active, userMsg := newMessage, text := text }
        else none
      | none => none
    ({ st with messages := messages, chats := chats }, pending)

/-- The reply message built after `getAIResponse` resolves: id
`(Date.now() + 1).toString()` and timestamp at resolution time; created
with status `delivered`. -/
def mkAiMessage (resolveNow : Int) (r : Nat) (p : Pending) : Message :=
  { id := toString (resolveNow + 1), text := getAIResponseText p.text r,
    sender := .ai, timestamp := resolveNow, status := .delivered }

/-- The continuation of `handleSendMessage` after the awaited delay: the
store entry of the chat id captured at send time is extended with
`[newMessage, aiMessage]` (the source appends the captured user message a
second time, not just the reply), and the reply is cached as that chat's
`lastMessage`.  The state it runs against is whatever state holds at
resolution time. -/
def resolveReply (resolveNow : Int) (r : Nat) (p : Pending) (st : State) : State :=
  let aiMessage := mkAiMessage resolveNow r p
  { st with
    messages := recSet st.messages p.chatId
      ((recGet st.messages p.chatId).getD [] ++ [p.userMsg, aiMessage]),
    chats := st.chats.map fun c =>
      if c.id == p.chatId then { c with lastMessage := some aiMessage } else c }

/-- `handleSend` from the `ChatArea` component: the only caller of
`onSendMessage` (= `handleSendMessage`); it refuses blank input and trims
the text before sending. -/
def handleSend (now : Int) (inputText : String) (st : State) : State × Option Pending :=
  if jsTrim inputText == "" then (st, none)
  else handleSendMessage now (jsTrim inputText) st

/-- `handleNewChat` from chat.tsx: prepend a fresh AI chat and select it. -/
def handleNewChat (now : Int) (st : State) : State :=
  let newChatId := "ai-" ++ toString now
  let newChat : Chat :=
    { id := newChatId,
      name := "AI Assistant " ++ toString ((st.chats.filter fun c => c.type == CType.ai).length + 1),
      type := .ai, avatar := "ü§ñ", unreadCount := 0, isOnline := true,
      lastMessage := none }
  { st with chats := newChat :: st.chats, activeChat := some newChatId }

/-- The `filteredChats` memo of the `ChatList` component: case-insensitive
substring match of the query against each chat name. -/
def filteredChats (query : String) (chats : List Chat) : List Chat :=
  chats.filter fun chat => jsIncludes (jsToLower chat.name) (jsToLower query)

end Routes

/-- JSON rendering of a `sender` tag, as `JSON.stringify` sees the string
stored in the field. -/
def senderToJson : Sender → JValue
  | .user => .jstr "user"
  | .ai => .jstr "ai"
  | .contact => .jstr "contact"

/-- Inverse reading of a `sender` string out of parsed JSON. -/
def decodeSender : JValue → Option Sender
  | .jstr "user" => some .user
  | .jstr "ai" => some .ai
  | .jstr "contact" => some .contact
  | _ => none

/-- JSON rendering of a chat `type` tag. -/
def ctypeToJson : CType → JValue
  | .ai => .jstr "ai"
  | .contact => .jstr "contact"

/-- Inverse reading of a chat `type` string out of parsed JSON. -/
def decodeCType : JValue → Option CType
  | .jstr "ai" => some .ai
  | .jstr "contact" => some .contact
  | _ => none

theorem decodeSender_senderToJson (s : Sender) : decodeSender (senderToJson s) = some s := by
  cases s <;> rfl

theorem decodeCType_ctypeToJson (t : CType) : decodeCType (ctypeToJson t) = some t := by
  cases t <;> rfl

namespace P000

/-- What `JSON.stringify` produces for a part_000 message: the `Date`
timestamp serializes through `toJSON` to ISO-8601 text (`jtime`). -/
def Message.toJson (m : Message) : JValue :=
  .jobj [ ("id", .jstr m.id), ("text", .jstr m.text),
          ("timestamp", .jtime m.timestamp), ("sender", senderToJson m.sender),
          ("isRead", .jbool m.isRead) ]

/-- What `JSON.stringify` produces for a part_000 chat.  A `lastMessage`
field is only present when the chat object carries one (the seed literals
do not; `JSON.stringify` drops absent fields). -/
def Chat.toJson (c : Chat) : JValue :=
  .jobj ([ ("id", .jstr c.id), ("name", .jstr c.name),
           ("type", ctypeToJson c.type), ("avatar", .jstr c.avatar),
           ("isOnline", .jbool c.isOnline), ("unreadCount", .jnum c.unreadCount),
           ("messages", .jarr (c.messages.map Message.toJson)) ] ++
         (match c.lastMessage with
          | none => []
          | some m => [("lastMessage", Message.toJson m)]))

/-- The part_000 save effect: on every change of `chats`, write
`JSON.stringify(chats)` under the key `telegram-clone-chats`. -/
def saveChats (chats : List Chat) : StoredValue :=
  .wellFormed (.jarr (chats.map Chat.toJson))

/-- The dynamic shape of one loaded chat in part_000: the initializer
revives only `messages[].timestamp` through `new Date`, so messages come
back as proper message values, while a stored `lastMessage` is kept as the
raw parsed JSON object (its timestamp still a string). -/
structure LoadedChat where
  id : String
  name : String
  type : CType
  avatar : String
  isOnline : Bool
  unreadCount : Nat
  messages : List Message
  lastMessage : Option JValue
deriving Repr

/-- A seed chat viewed as a loaded chat (the seed branch of the
initializer returns `mockChats` unchanged; seed chats carry no
`lastMessage`). -/
def Chat.toLoadedSeed (c : Chat) : LoadedChat :=
  { id := c.id, name := c.name, type := c.type, avatar := c.avatar,
    isOnline := c.isOnline, unreadCount := c.unreadCount,
    messages := c.messages, lastMessage := none }

/-- The revival `(msg) => (\x7b ...msg, timestamp: new Date(msg.timestamp) \x7d)`
applied to one parsed message object.  The source performs no shape check;
a `typeError` result models dynamic data this typed reading cannot
represent (on anything produced by `saveChats` the reading is exact). -/
def reviveMessage (v : JValue) : Except JSError Message :=
  match jGet v "id", jGet v "text", jGet v "timestamp", jGet v "sender", jGet v "isRead" with
  | some (.jstr id), some (.jstr text), some (.jtime ts), some snd, some (.jbool ir) =>
    match decodeSender snd with
    | some sender => .ok { id := id, text := text, timestamp := ts, sender := sender, isRead := ir }
    | none => .error .typeError
  | _, _, _, _, _ => .error .typeError

/-- Exception-propagating elementwise revival of a parsed message array
(JavaScript `Array.prototype.map`: applied in order, the first exception
aborts the whole map). -/
def reviveMessages : List JValue → Except JSError (List Message)
  | [] => .ok []
  | v :: rest =>
    match reviveMessage v with
    | .error e => .error e
    | .ok m =>
      match reviveMessages rest with
      | .error e => .error e
      | .ok ms => .ok (m :: ms)

/-- The revival of one parsed chat object: `chat.messages.map(...)` raises
a `TypeError` when `messages` is not an array; other fields are passed
through (typed here; exact on anything produced by `saveChats`), and a
stored `lastMessage` is kept raw. -/
def reviveChat (v : JValue) : Except JSError LoadedChat :=
  match jGet v "id", jGet v "name", jGet v "type", jGet v "avatar",
        jGet v "isOnline", jGet v "unreadCount", jGet v "messages" with
  | some (.jstr id), some (.jstr name), some ty, some (.jstr avatar),
    some (.jbool isOnline), some (.jnum u), some (.jarr ms) =>
    match decodeCType ty, u.toNat', reviveMessages ms with
    | some t, some un, .ok rms =>
      .ok { id := id, name := name, type := t, avatar := avatar, isOnline := isOnline,
            unreadCount := un, messages := rms, lastMessage := jGet v "lastMessage" }
    | _, _, _ => .error .typeError
  | _, _, _, _, _, _, _ => .error .typeError

/-- Exception-propagating elementwise revival of the parsed chat array. -/
def reviveChatList : List JValue → Except JSError (List LoadedChat)
  | [] => .ok []
  | v :: rest =>
    match reviveChat v with
    | .error e => .error e
    | .ok c =>
      match reviveChatList rest with
      | .error e => .error e
      | .ok cs => .ok (c :: cs)

/-- `chats.map(...)` over the parsed document: a `TypeError` when the
document is not an array. -/
def reviveChats : JValue → Except JSError (List LoadedChat)
  | .jarr cs => reviveChatList cs
  | _ => .error .typeError

/-- The `useState` initializer of part_000, the load path of its
persistence: a missing key or the empty string falls back to the seed
data, but the `JSON.parse` call and the revival maps are *not* guarded by
any try/catch, so their exceptions propagate out of the initializer and
crash startup. -/
def chatAppInit (t0 : Int) (stored : StoredValue) : Except JSError (List LoadedChat) :=
  match stored with
  | .absent => .ok ((mockChats t0).map Chat.toLoadedSeed)
  | .empty => .ok ((mockChats t0).map Chat.toLoadedSeed)
  | .malformed => .error .syntaxError
  | .wellFormed v => reviveChats v

end P000

namespace Routes

/-- What `JSON.stringify` produces for a routes message: the `Date`
timestamp serializes through `toJSON` to ISO-8601 text (`jtime`). -/
def statusToJson : MStatus → JValue
  | .sent => .jstr "sent"
  | .delivered => .jstr "delivered"
  | .read => .jstr "read"

/-- JSON rendering of one routes message. -/
def Message.toJson (m : Message) : JValue :=
  .jobj [ ("id", .jstr m.id), ("text", .jstr m.text),
          ("sender", senderToJson m.sender), ("timestamp", .jtime m.timestamp),
          ("status", statusToJson m.status) ]

/-- `saveMessages` from chat.tsx: `JSON.stringify` of the whole message
record under the key `ai-chat-messages` (the quota-failure catch only
logs; the success path is modeled). -/
def saveMessages (messages : List (String × List Message)) : StoredValue :=
  .wellFormed (.jobj (messages.map fun e => (e.1, .jarr (e.2.map Message.toJson))))

/-- `loadMessages` from chat.tsx: a falsy stored value gives `\x7b\x7d`, a parse
error is caught and gives `\x7b\x7d`, and otherwise the parsed document is
returned *as is* — no field of it, in particular no timestamp, is revived.
It never raises (it is total). -/
def loadMessages (stored : StoredValue) : JValue :=
  match stored with
  | .absent => .jobj []
  | .empty => .jobj []
  | .malformed => .jobj []
  | .wellFormed v => v

end Routes

/-- Claim C8: in both implementations, `filteredChats("")` returns all
chats in their original order, and for every query `q`, `filteredChats(q)`
returns exactly the subset of chats whose name case-insensitively contains
`q` as a contiguous substring, preserving the chats' original relative
order (the result is a sublist of the input). -/
theorem filteredChats_spec :
    (∀ chats : List P000.Chat, P000.filteredChats "" chats = chats) ∧
    (∀ (q : String) (chats : List P000.Chat) (c : P000.Chat),
      c ∈ P000.filteredChats q chats ↔
        c ∈ chats ∧ ∃ pre post, pre ++ (jsToLower q).data ++ post = (jsToLower c.name).data) ∧
    (∀ (q : String) (chats : List P000.Chat),
      List.Sublist (P000.filteredChats q chats) chats) ∧
    (∀ chats : List Routes.Chat, Routes.filteredChats "" chats = chats) ∧
    (∀ (q : String) (chats : List Routes.Chat) (c : Routes.Chat),
      c ∈ Routes.filteredChats q chats ↔
        c ∈ chats ∧ ∃ pre post, pre ++ (jsToLower q).data ++ post = (jsToLower c.name).data) ∧
    (∀ (q : String) (chats : List Routes.Chat),
      List.Sublist (Routes.filteredChats q chats) chats) := by
  have hlow : jsToLower "" = "" := by decide
  refine ⟨?_, ?_, ?_, ?_, ?_, ?_⟩
  · intro chats
    refine List.filter_eq_self.mpr fun c _ => ?_
    rw [hlow]
    exact jsIncludes_empty_needle _
  · intro q chats c
    rw [P000.filteredChats, List.mem_filter, jsIncludes_iff]
  · intro q chats
    exact List.filter_sublist chats
  · intro chats
    refine List.filter_eq_self.mpr fun c _ => ?_
    rw [hlow]
    exact jsIncludes_empty_needle _
  · intro q chats c
    rw [Routes.filteredChats, List.mem_filter, jsIncludes_iff]
  · intro q chats
    exact List.filter_sublist chats

/-- Claim C3 (the code contradicts it): part_000's load path wraps no
try/catch around `JSON.parse` or the revival maps, so malformed stored
text raises a `SyntaxError` out of the `useState` initializer (crashing
startup) instead of falling back to the seed data, and well-formed text of
the wrong shape raises a `TypeError`; only an absent key or the empty
string fall back to the seed.  The routes `loadMessages`, by contrast, is
total and catches the parse error. -/
theorem chatAppInit_malformed_propagates :
    P000.chatAppInit 0 .malformed = .error .syntaxError ∧
    P000.chatAppInit 0 (.wellFormed (.jnum 5)) = .error .typeError ∧
    P000.chatAppInit 0 .absent = .ok ((P000.mockChats 0).map P000.Chat.toLoadedSeed) ∧
    P000.chatAppInit 0 .empty = .ok ((P000.mockChats 0).map P000.Chat.toLoadedSeed) ∧
    Routes.loadMessages .malformed = .jobj [] ∧
    Routes.loadMessages .absent = .jobj [] := by
  exact ⟨rfl, rfl, rfl, rfl, rfl, rfl⟩

/-- A concrete message used to evaluate the routes persistence round trip. -/
def c2Msg : Routes.Message :=
  { id := "100", text := "hi", sender := .user,
    timestamp := 1700000000000, status := .sent }

/-- A one-chat message store used to evaluate the routes persistence
round trip at a concrete input. -/
def c2Store : List (String × List Routes.Message) := [("1", [c2Msg])]

/-- Claim C2 (the routes code contradicts it): `loadMessages` returns the
parsed document unchanged — `load(save(m))` is the raw JSON tree — so the
timestamp of the stored message is still the ISO-8601 *string* (a value
with `typeof === "string"`), not a time value.  part_000's initializer, by
contrast, does revive message timestamps (final conjunct). -/
theorem loadMessages_timestamp_left_raw :
    (∀ msgs : List (String × List Routes.Message),
      Routes.loadMessages (Routes.saveMessages msgs) =
        .jobj (msgs.map fun e => (e.1, .jarr (e.2.map Routes.Message.toJson)))) ∧
    (jGet (Routes.loadMessages (Routes.saveMessages c2Store)) "1" =
      some (.jarr [Routes.Message.toJson c2Msg])) ∧
    (jGet (Routes.Message.toJson c2Msg) "timestamp" =
      some (.jtime 1700000000000)) ∧
    JValue.isStringValue (.jtime 1700000000000) = true ∧
    (P000.reviveMessage (P000.Message.toJson
        { id := "100", text := "hi", timestamp := 1700000000000,
          sender := .user, isRead := true }) =
      .ok { id := "100", text := "hi", timestamp := 1700000000000,
            sender := .user, isRead := true }) := by
  exact ⟨fun _ => rfl, rfl, rfl, rfl, rfl⟩

/-- Claim C10: `markAsRead id` touches only the read markers and the
unread counter of chat `id`.  In part_000 every other chat is returned
unchanged (pointwise identical), and within chat `id` every message keeps
its id, text, timestamp and sender, in the same order and number, with
only `isRead` forced to `true` and `unreadCount` to 0 (name, type, avatar,
online flag and `lastMessage` are untouched).  The mark-read portion of
the routes `handleChatSelect` has the same frame on its message store and
chat list. -/
theorem markAsRead_frame :
    (∀ (chats : List P000.Chat) (id : String),
      List.Forall₂ (fun c2 c =>
        (c.id ≠ id → c2 = c) ∧
        (c.id = id →
          c2.id = c.id ∧ c2.name = c.name ∧ c2.type = c.type ∧
          c2.avatar = c.avatar ∧ c2.isOnline = c.isOnline ∧
          c2.lastMessage = c.lastMessage ∧ c2.unreadCount = 0 ∧
          List.Forall₂ (fun m2 m =>
            m2.id = m.id ∧ m2.text = m.text ∧ m2.timestamp = m.timestamp ∧
            m2.sender = m.sender ∧ m2.isRead = true) c2.messages c.messages))
        (P000.markAsRead id chats) chats) ∧
    (∀ (st : Routes.State) (id : String),
      (∀ k, k ≠ id →
        recGet (Routes.handleChatSelect id st).messages k = recGet st.messages k) ∧
      List.Forall₂ (fun m2 m =>
        m2.id = m.id ∧ m2.text = m.text ∧ m2.timestamp = m.timestamp ∧
        m2.sender = m.sender ∧ (m.sender = .user → m2 = m) ∧
        (m.sender ≠ .user → m2.status = .read))
        ((recGet (Routes.handleChatSelect id st).messages id).getD [])
        ((recGet st.messages id).getD []) ∧
      List.Forall₂ (fun c2 c =>
        (c.id ≠ id → c2 = c) ∧ (c.id = id → c2 = { c with unreadCount := 0 }))
        (Routes.handleChatSelect id st).chats st.chats) := by
  constructor
  · intro chats id
    refine forall₂_map_left _ _ chats fun c _ => ?_
    by_cases hid : c.id = id
    · have hbeq : (c.id == id) = true := beq_iff_eq.mpr hid
      rw [if_pos hbeq]
      refine ⟨fun h => absurd hid h, fun _ => ⟨rfl, rfl, rfl, rfl, rfl, rfl, rfl, ?_⟩⟩
      exact forall₂_map_left _ _ c.messages fun m _ => ⟨rfl, rfl, rfl, rfl, rfl⟩
    · have hbeq : ¬((c.id == id) = true) := fun h => hid (beq_iff_eq.mp h)
      rw [if_neg hbeq]
      exact ⟨fun _ => rfl, fun h => absurd h hid⟩
  · intro st id
    refine ⟨?_, ?_, ?_⟩
    · intro k hk
      simp only [Routes.handleChatSelect]
      exact recGet_recSet_ne _ _ _ _ hk
    · have hself :
          recGet (Routes.handleChatSelect id st).messages id =
            some (((recGet st.messages id).getD []).map fun msg =>
              if msg.sender != Sender.user then { msg with status := .read } else msg) := by
        simp only [Routes.handleChatSelect]
        exact recGet_recSet_self _ _ _
      rw [hself, Option.getD_some]
      refine forall₂_map_left _ _ _ fun m _ => ?_
      by_cases hs : m.sender = Sender.user
      · have hbeq : ¬((m.sender != Sender.user) = true) := by simp [bne, hs]
        rw [if_neg hbeq]
        exact ⟨rfl, rfl, rfl, rfl, fun _ => rfl, fun h => absurd hs h⟩
      · have hbeq : (m.sender != Sender.user) = true := by simp [bne, hs]
        rw [if_pos hbeq]
        exact ⟨rfl, rfl, rfl, rfl, fun h => absurd h hs, fun _ => rfl⟩
    · refine forall₂_map_left _ _ st.chats fun c _ => ?_
      by_cases hid : c.id = id
      · have hbeq : (c.id == id) = true := beq_iff_eq.mpr hid
        rw [if_pos hbeq]
        exact ⟨fun h => absurd hid h, fun _ => rfl⟩
      · have hbeq : ¬((c.id == id) = true) := fun h => hid (beq_iff_eq.mp h)
        rw [if_neg hbeq]
        exact ⟨fun _ => rfl, fun h => absurd h hid⟩

/-- Claim C9: in part_000, every simulated reply is created with
`isRead = true`, and no state operation increases any chat's unread
counter: the resolve step and the send step leave every unread counter
exactly as it was, `markAsRead` and `selectChat` only lower counters,
`createNewChat` prepends a chat with counter 0 and keeps the rest
untouched, and the mount effect leaves counters unchanged.  In particular
a reply resolving for a chat that is not currently active does not
increment that chat's unread counter. -/
theorem p000_unread_never_incremented :
    (∀ (rt : Int) (r : Nat) (p : P000.Pending),
      (P000.mkAiReply rt r p).isRead = true ∧ (P000.mkAiReply rt r p).sender = .ai) ∧
    (∀ (rt : Int) (r : Nat) (p : P000.Pending) (st : P000.AppState),
      List.Forall₂ (fun c2 c => c2.unreadCount = c.unreadCount)
        (P000.resolveReply rt r p st).chats st.chats) ∧
    (∀ (now : Int) (st : P000.AppState),
      List.Forall₂ (fun c2 c => c2.unreadCount = c.unreadCount)
        ((P000.sendMessage now st).1).chats st.chats) ∧
    (∀ (id : String) (chats : List P000.Chat),
      List.Forall₂ (fun c2 c => c2.unreadCount ≤ c.unreadCount)
        (P000.markAsRead id chats) chats) ∧
    (∀ (id : String) (st : P000.AppState),
      List.Forall₂ (fun c2 c => c2.unreadCount ≤ c.unreadCount)
        (P000.selectChat id st).chats st.chats) ∧
    (∀ (now : Int) (ty : CType) (st : P000.AppState),
      ((P000.createNewChat now ty st).chats.head?.map fun c => c.unreadCount) = some 0 ∧
      (P000.createNewChat now ty st).chats.tail = st.chats) ∧
    (∀ chats : List P000.Chat,
      List.Forall₂ (fun c2 c => c2.unreadCount = c.unreadCount)
        (P000.updateLastMessages chats) chats) := by
  refine ⟨fun _ _ _ => ⟨rfl, rfl⟩, ?_, ?_, ?_, ?_, ?_, ?_⟩
  · intro rt r p st
    refine forall₂_map_left _ _ st.chats fun c _ => ?_
    by_cases h : (c.id == p.chatId) = true
    · rw [if_pos h]
    · rw [if_neg h]
  · intro now st
    cases hA : st.activeChat with
    | none =>
      simp only [P000.sendMessage, hA]
      exact List.forall₂_same.mpr fun c _ => rfl
    | some active =>
      by_cases ht : (jsTrim st.newMessage == "") = true
      · simp only [P000.sendMessage, hA, ht, if_true]
        exact List.forall₂_same.mpr fun c _ => rfl
      · simp only [P000.sendMessage, hA]
        rw [if_neg ht]
        dsimp only
        refine forall₂_map_left _ _ st.chats fun c _ => ?_
        by_cases h : (c.id == active) = true
        · rw [if_pos h]
        · rw [if_neg h]
  · intro id chats
    refine forall₂_map_left _ _ chats fun c _ => ?_
    by_cases h : (c.id == id) = true
    · rw [if_pos h]
      exact Nat.zero_le _
    · rw [if_neg h]
  · intro id st
    refine forall₂_map_left _ _ st.chats fun c _ => ?_
    by_cases h : (c.id == id) = true
    · rw [if_pos h]
      exact Nat.zero_le _
    · rw [if_neg h]
  · exact fun now ty st => ⟨rfl, rfl⟩
  · exact fun chats => forall₂_map_left _ _ chats fun c _ => rfl

/-- Boolean inequality versus boolean equality. -/
theorem bne_true_iff_beq_false {α : Type} [BEq α] (a b : α) :
    (a != b) = true ↔ (a == b) = false := by
  cases h : a == b <;> simp [bne, h]

/-- The part_000 seed state at load instant 0 (no chat selected, empty
compose box). -/
def p000Seed : P000.AppState :=
  { chats := P000.mockChats 0, activeChat := none, newMessage := "" }

/-- Claim C4 is false on the code: neither implementation checks the id
passed to the select operation for existence.  Selecting the nonexistent
id "999" from the routes initial state changes the state — `activeChat`
becomes "999" — even though no chat has that id, so `activeChatId` does
not always reference an existing chat. -/
theorem selectChat_nonexistent_changes_state :
    Routes.handleChatSelect "999" Routes.initState ≠ Routes.initState ∧
    (Routes.handleChatSelect "999" Routes.initState).activeChat = some "999" ∧
    (Routes.initState.chats.all fun c => c.id != "999") = true ∧
    ((Routes.handleChatSelect "999" Routes.initState).chats.all fun c => c.id != "999") = true := by
  decide

/-- Claim C4, amended: selecting an id that exists in no chat leaves every
chat unchanged (the routes implementation also leaves every *other*
message-store entry unchanged), but it is not a no-op: `activeChatId` is
still set to the given id, so `activeChatId` may reference a nonexistent
chat. -/
theorem selectChat_nonexistent_amended :
    (∀ (st : Routes.State) (id : String),
      (st.chats.all fun c => c.id != id) = true →
      (Routes.handleChatSelect id st).chats = st.chats ∧
      (Routes.handleChatSelect id st).activeChat = some id ∧
      ∀ k, k ≠ id →
        recGet (Routes.handleChatSelect id st).messages k = recGet st.messages k) ∧
    (∀ (st : P000.AppState) (id : String),
      (st.chats.all fun c => c.id != id) = true →
      (P000.selectChat id st).chats = st.chats ∧
      (P000.selectChat id st).activeChat = some id) := by
  constructor
  · intro st id hall
    refine ⟨?_, rfl, ?_⟩
    · refine list_map_eq_self _ st.chats fun c hc => ?_
      have hf : (c.id == id) = false :=
        (bne_true_iff_beq_false _ _).mp (List.all_eq_true.mp hall c hc)
      rw [if_neg (by rw [hf]; exact Bool.false_ne_true)]
    · intro k hk
      simp only [Routes.handleChatSelect]
      exact recGet_recSet_ne _ _ _ _ hk
  · intro st id hall
    refine ⟨?_, rfl⟩
    refine list_map_eq_self _ st.chats fun c hc => ?_
    have hf : (c.id == id) = false :=
      (bne_true_iff_beq_false _ _).mp (List.all_eq_true.mp hall c hc)
    rw [if_neg (by rw [hf]; exact Bool.false_ne_true)]

/-- Witness for the amended C4 at a concrete input. -/
theorem selectChat_nonexistent_amended_witness :
    (Routes.handleChatSelect "999" Routes.initState).chats = Routes.initState.chats ∧
    (Routes.handleChatSelect "999" Routes.initState).activeChat = some "999" ∧
    (P000.selectChat "999" p000Seed).chats = p000Seed.chats ∧
    (P000.selectChat "999" p000Seed).activeChat = some "999" := by
  have h1 := selectChat_nonexistent_amended.1 Routes.initState "999" (by decide)
  have h2 := selectChat_nonexistent_amended.2 p000Seed "999" (by decide)
  exact ⟨h1.1, h1.2.1, h2.1, h2.2⟩

/-- A routes state holding a user-sent message with status `sent` in chat
"1" (which exists in the seed chat list). -/
def c5State : Routes.State :=
  { chats := Routes.mockChats, activeChat := none,
    messages := [("1", [{ id := "5", text := "yo", sender := .user,
                          timestamp := 5, status := .sent }])] }

/-- Claim C5 is false on the routes code: selecting existing chat "1"
leaves its user-sent message at status `sent` — not every message in the
selected chat ends up with read status. -/
theorem selectChat_skips_user_messages :
    (Routes.mockChats.any fun c => c.id == "1") = true ∧
    (recGet (Routes.handleChatSelect "1" c5State).messages "1" =
      some [{ id := "5", text := "yo", sender := .user,
              timestamp := 5, status := .sent }]) ∧
    ¬(∀ m ∈ (recGet (Routes.handleChatSelect "1" c5State).messages "1").getD [],
        m.status = MStatus.read) := by
  decide

/-- Claim C5, amended: after selecting a chat its unread counter is 0 and
every message from a sender other than the user has read status; the
part_000 implementation moreover marks user-sent messages read, while the
routes implementation leaves user-sent messages' status unchanged. -/
theorem selectChat_marks_read_amended :
    (∀ (st : P000.AppState) (id : String),
      ∀ c ∈ (P000.selectChat id st).chats, c.id = id →
        c.unreadCount = 0 ∧ ∀ m ∈ c.messages, m.isRead = true) ∧
    (∀ (st : Routes.State) (id : String),
      (∀ c ∈ (Routes.handleChatSelect id st).chats, c.id = id → c.unreadCount = 0) ∧
      (∀ m ∈ (recGet (Routes.handleChatSelect id st).messages id).getD [],
        m.sender ≠ .user → m.status = .read)) := by
  constructor
  · intro st id c hc hcid
    simp only [P000.selectChat, P000.markAsRead] at hc
    rcases List.mem_map.mp hc with ⟨c0, _, rfl⟩
    by_cases h : (c0.id == id) = true
    · rw [if_pos h]
      refine ⟨rfl, fun m hm => ?_⟩
      rcases List.mem_map.mp hm with ⟨m0, _, rfl⟩
      rfl
    · rw [if_neg h] at hcid
      exact absurd (beq_iff_eq.mpr hcid) h
  · intro st id
    constructor
    · intro c hc hcid
      simp only [Routes.handleChatSelect] at hc
      rcases List.mem_map.mp hc with ⟨c0, _, rfl⟩
      by_cases h : (c0.id == id) = true
      · rw [if_pos h]
      · rw [if_neg h] at hcid
        exact absurd (beq_iff_eq.mpr hcid) h
    · intro m hm hmu
      have hself :
          recGet (Routes.handleChatSelect id st).messages id =
            some (((recGet st.messages id).getD []).map fun msg =>
              if msg.sender != Sender.user then { msg with status := .read } else msg) := by
        simp only [Routes.handleChatSelect]
        exact recGet_recSet_self _ _ _
      rw [hself, Option.getD_some] at hm
      rcases List.mem_map.mp hm with ⟨m0, _, rfl⟩
      by_cases h : (m0.sender != Sender.user) = true
      · rw [if_pos h]
      · rw [if_neg h] at hmu ⊢
        exact absurd (by simpa [bne] using h) hmu

/-- The part_000 chat "2" after being selected (unread counter zeroed,
its message marked read). -/
def c5UpdatedChat : P000.Chat :=
  { id := "2", name := "ChatGPT", type := .ai, avatar := "🧠",
    isOnline := true, unreadCount := 0, lastMessage := none,
    messages := [
      { id := "2",
        text := "I can help you with coding, writing, analysis, and much more!",
        timestamp := -120000, sender := .ai, isRead := true } ] }

/-- Witness for the amended C5 at a concrete input: selecting seed chat
"2" (which starts with unread counter 2 and an unread message). -/
theorem selectChat_marks_read_amended_witness :
    (c5UpdatedChat ∈ (P000.selectChat "2" p000Seed).chats ∧
      c5UpdatedChat.unreadCount = 0 ∧ ∀ m ∈ c5UpdatedChat.messages, m.isRead = true) ∧
    (∀ m ∈ (recGet (Routes.handleChatSelect "1" c5State).messages "1").getD [],
      m.sender ≠ .user → m.status = .read) := by
  refine ⟨⟨by decide, ?_⟩, ?_⟩
  · exact selectChat_marks_read_amended.1 p000Seed "2" c5UpdatedChat (by decide) (by decide)
  · exact (selectChat_marks_read_amended.2 c5State "1").2

/-- A routes state with chat "1" active and an empty message store. -/
def c6State : Routes.State :=
  { chats := Routes.mockChats, activeChat := some "1", messages := [] }

/-- A part_000 state with chat "1" active and a whitespace-only compose
box. -/
def c6BlankP000 : P000.AppState :=
  { chats := P000.mockChats 0, activeChat := some "1", newMessage := "   " }

/-- Claim C6 is false of the routes store-level operation: chat.tsx's
`handleSendMessage` has no blank-text check, so calling it directly with
a whitespace-only string appends a whitespace message to the active
chat's sequence. -/
theorem handleSendMessage_blank_not_noop :
    ((Routes.handleSendMessage 10 "   " c6State).1.messages =
      [("1", [{ id := "10", text := "   ", sender := .user,
                timestamp := 10, status := .sent }])]) ∧
    (Routes.handleSendMessage 10 "   " c6State).1 ≠ c6State := by
  decide

/-- Claim C6, amended: part_000's `sendMessage` rejects blank compose-box
text as a complete no-op; in the routes implementation the blank-rejection
lives in the only caller, `handleSend`, which refuses blank input before
invoking `handleSendMessage`, so the composed send path is a no-op on
blank text (while `handleSendMessage` itself appends whatever text it is
given). -/
theorem blank_send_amended :
    (∀ (now : Int) (st : P000.AppState), jsTrim st.newMessage = "" →
      P000.sendMessage now st = (st, none)) ∧
    (∀ (now : Int) (text : String) (st : Routes.State), jsTrim text = "" →
      Routes.handleSend now text st = (st, none)) := by
  constructor
  · intro now st h
    cases hA : st.activeChat with
    | none => simp [P000.sendMessage, hA]
    | some active =>
      simp only [P000.sendMessage, hA]
      rw [if_pos (beq_iff_eq.mpr h)]
  · intro now text st h
    rw [Routes.handleSend, if_pos (beq_iff_eq.mpr h)]

/-- Witness for the amended C6 at concrete inputs. -/
theorem blank_send_amended_witness :
    P000.sendMessage 10 c6BlankP000 = (c6BlankP000, none) ∧
    Routes.handleSend 10 "   " c6State = (c6State, none) :=
  ⟨blank_send_amended.1 10 c6BlankP000 (by decide),
   blank_send_amended.2 10 "   " c6State (by decide)⟩

/-- A part_000 state right after mount (the mount effect has recomputed
`lastMessage`) with chat "1" selected and "hi" typed. -/
def c7State : P000.AppState :=
  { chats := P000.updateLastMessages (P000.mockChats 0),
    activeChat := some "1", newMessage := "hi" }

/-- Claim C7 is false on the part_000 code: the effect recomputing
`lastMessage` has an empty dependency array, so it runs only at mount and
`sendMessage` does not update the field; right after a send, chat "1"'s
`lastMessage` is still the seed message while the actual last element of
its sequence is the new "hi" message. -/
theorem lastMessage_stale_after_send :
    (∀ c ∈ c7State.chats, c.lastMessage = c.messages.getLast?) ∧
    ¬(∀ c ∈ ((P000.sendMessage 100 c7State).1).chats,
        c.lastMessage = c.messages.getLast?) := by
  decide

/-- Claim C7, amended: `lastMessage` is a cached snapshot, not a
maintained invariant.  The part_000 mount effect recomputes it (after
which it equals the last element of each message list), but part_000's
send and resolve steps do not touch it.  The routes implementation caches
the message just appended on each send and each resolved reply, so there
it equals the last element of the active entry right after each of those
steps. -/
theorem lastMessage_amended :
    (∀ chats : List P000.Chat, ∀ c ∈ P000.updateLastMessages chats,
      c.lastMessage = c.messages.getLast?) ∧
    (∀ (now : Int) (text : String) (st : Routes.State) (a : String),
      st.activeChat = some a →
      ∃ m, (∀ c ∈ ((Routes.handleSendMessage now text st).1).chats,
              c.id = a → c.lastMessage = some m) ∧
        ((recGet ((Routes.handleSendMessage now text st).1).messages a).getD []).getLast?
          = some m) ∧
    (∀ (rt : Int) (r : Nat) (p : Routes.Pending) (st : Routes.State),
      ∃ m, (∀ c ∈ (Routes.resolveReply rt r p st).chats,
              c.id = p.chatId → c.lastMessage = some m) ∧
        ((recGet (Routes.resolveReply rt r p st).messages p.chatId).getD []).getLast?
          = some m) := by
  refine ⟨?_, ?_, ?_⟩
  · intro chats c hc
    rcases List.mem_map.mp hc with ⟨c0, _, rfl⟩
    rfl
  · intro now text st a hA
    refine ⟨{ id := toString now, text := text, sender := .user,
              timestamp := now, status := .sent }, ?_, ?_⟩
    · intro c hc hcid
      simp only [Routes.handleSendMessage, hA] at hc
      rcases List.mem_map.mp hc with ⟨c0, _, rfl⟩
      by_cases h : (c0.id == a) = true
      · rw [if_pos h]
      · rw [if_neg h] at hcid
        exact absurd (beq_iff_eq.mpr hcid) h
    · have hself :
          recGet ((Routes.handleSendMessage now text st).1).messages a =
            some ((recGet st.messages a).getD [] ++
              [{ id := toString now, text := text, sender := .user,
                 timestamp := now, status := .sent }]) := by
        simp only [Routes.handleSendMessage, hA]
        exact recGet_recSet_self _ _ _
      rw [hself, Option.getD_some]
      exact List.getLast?_concat _
  · intro rt r p st
    refine ⟨Routes.mkAiMessage rt r p, ?_, ?_⟩
    · intro c hc hcid
      simp only [Routes.resolveReply] at hc
      rcases List.mem_map.mp hc with ⟨c0, _, rfl⟩
      by_cases h : (c0.id == p.chatId) = true
      · rw [if_pos h]
      · rw [if_neg h] at hcid
        exact absurd (beq_iff_eq.mpr hcid) h
    · have hself :
          recGet (Routes.resolveReply rt r p st).messages p.chatId =
            some ((recGet st.messages p.chatId).getD [] ++
              [p.userMsg, Routes.mkAiMessage rt r p]) := by
        simp only [Routes.resolveReply]
        exact recGet_recSet_self _ _ _
      rw [hself, Option.getD_some]
      rw [show (recGet st.messages p.chatId).getD [] ++
            [p.userMsg, Routes.mkAiMessage rt r p] =
          ((recGet st.messages p.chatId).getD [] ++ [p.userMsg]) ++
            [Routes.mkAiMessage rt r p] by simp]
      exact List.getLast?_concat _

/-- Witness for the amended C7 at a concrete input: a send into active
chat "1" of the routes state. -/
theorem lastMessage_amended_witness :
    ∃ m, (∀ c ∈ ((Routes.handleSendMessage 10 "hey" c6State).1).chats,
            c.id = "1" → c.lastMessage = some m) ∧
      ((recGet ((Routes.handleSendMessage 10 "hey" c6State).1).messages "1").getD []).getLast?
        = some m :=
  lastMessage_amended.2.1 10 "hey" c6State "1" rfl

/-- Claim C1: in both implementations, a reply is scheduled exactly by
sends into an AI-type chat (a contact-type chat never schedules one), the
scheduled reply carries the chat id captured at send time, and the
resolve step appends exactly one new message with sender `ai` to that
captured chat's history — every other chat's history is untouched, and
the result does not depend on which chat is active at resolution time
(the resolve step never reads `activeChat`).  In the routes
implementation the resolve step also re-appends the captured user
message, so its ai-sender count still grows by exactly one. -/
theorem reply_attachment :
    (∀ (now : Int) (st : P000.AppState) (p : P000.Pending),
      (P000.sendMessage now st).2 = some p →
      st.activeChat = some p.chatId ∧
      ∃ chat ∈ st.chats, chat.id = p.chatId ∧ chat.type = CType.ai) ∧
    (∀ (now : Int) (st : P000.AppState) (a : String) (chat : P000.Chat),
      st.activeChat = some a → jsTrim st.newMessage ≠ "" →
      (st.chats.find? fun c => c.id == a) = some chat → chat.type = CType.ai →
      (P000.sendMessage now st).2 = some { chatId := a, userText := st.newMessage }) ∧
    (∀ (now : Int) (st : P000.AppState) (a : String) (chat : P000.Chat),
      st.activeChat = some a →
      (st.chats.find? fun c => c.id == a) = some chat → chat.type = CType.contact →
      (P000.sendMessage now st).2 = none) ∧
    (∀ (rt : Int) (r : Nat) (p : P000.Pending) (st : P000.AppState),
      List.Forall₂ (fun c2 c =>
        (c.id ≠ p.chatId → c2 = c) ∧
        (c.id = p.chatId →
          c2.messages = c.messages ++ [P000.mkAiReply rt r p] ∧
          (c2.messages.countP fun m => m.sender == Sender.ai) =
            (c.messages.countP fun m => m.sender == Sender.ai) + 1))
        (P000.resolveReply rt r p st).chats st.chats) ∧
    (∀ (rt : Int) (r : Nat) (p : P000.Pending) (st : P000.AppState) (x : Option String),
      (P000.resolveReply rt r p { st with activeChat := x }).chats =
        (P000.resolveReply rt r p st).chats) ∧
    (∀ (now : Int) (text : String) (st : Routes.State) (p : Routes.Pending),
      (Routes.handleSendMessage now text st).2 = some p →
      st.activeChat = some p.chatId ∧ p.userMsg.sender = Sender.user ∧
      ∃ chat ∈ st.chats, chat.id = p.chatId ∧ chat.type = CType.ai) ∧
    (∀ (now : Int) (text : String) (st : Routes.State) (a : String) (chat : Routes.Chat),
      st.activeChat = some a → jsTrim text ≠ "" →
      (st.chats.find? fun c => c.id == a) = some chat → chat.type = CType.ai →
      ∃ p, (Routes.handleSend now text st).2 = some p ∧ p.chatId = a) ∧
    (∀ (now : Int) (text : String) (st : Routes.State) (a : String) (chat : Routes.Chat),
      st.activeChat = some a →
      (st.chats.find? fun c => c.id == a) = some chat → chat.type = CType.contact →
      (Routes.handleSendMessage now text st).2 = none) ∧
    (∀ (rt : Int) (r : Nat) (p : Routes.Pending) (st : Routes.State),
      p.userMsg.sender = Sender.user →
      ((recGet (Routes.resolveReply rt r p st).messages p.chatId).getD [] =
        (recGet st.messages p.chatId).getD [] ++ [p.userMsg, Routes.mkAiMessage rt r p]) ∧
      (((recGet (Routes.resolveReply rt r p st).messages p.chatId).getD []).countP
          fun m => m.sender == Sender.ai) =
        (((recGet st.messages p.chatId).getD []).countP fun m => m.sender == Sender.ai) + 1 ∧
      ∀ k, k ≠ p.chatId →
        recGet (Routes.resolveReply rt r p st).messages k = recGet st.messages k) ∧
    (∀ (rt : Int) (r : Nat) (p : Routes.Pending) (st : Routes.State) (x : Option String),
      (Routes.resolveReply rt r p { st with activeChat := x }).messages =
        (Routes.resolveReply rt r p st).messages) := by
  refine ⟨?_, ?_, ?_, ?_, ?_, ?_, ?_, ?_, ?_, ?_⟩
  · intro now st p h
    cases hA : st.activeChat with
    | none => simp [P000.sendMessage, hA] at h
    | some a =>
      by_cases ht : (jsTrim st.newMessage == "") = true
      · simp [P000.sendMessage, hA, ht] at h
      · simp only [P000.sendMessage, hA] at h
        rw [if_neg ht] at h
        try dsimp only at h
        cases hF : st.chats.find? fun c => c.id == a with
        | none => rw [hF] at h; simp at h
        | some chat =>
          rw [hF] at h
          try dsimp only at h
          by_cases hty : (chat.type == CType.ai) = true
          · rw [if_pos hty] at h
            try dsimp only at h
            have hp := Option.some.inj h
            have hpc : p.chatId = a := by rw [← hp]
            have hq : (chat.id == a) = true := by simpa using List.find?_some hF
            refine ⟨by rw [hpc], chat, List.mem_of_find?_eq_some hF, ?_, ?_⟩
            · rw [hpc]
              exact beq_iff_eq.mp hq
            · exact beq_iff_eq.mp hty
          · rw [if_neg hty] at h
            simp at h
  · intro now st a chat hA hne hF hty
    simp only [P000.sendMessage, hA]
    rw [if_neg fun hc => hne (beq_iff_eq.mp hc)]
    try dsimp only
    rw [hF]
    try dsimp only
    rw [if_pos (beq_iff_eq.mpr hty)]
  · intro now st a chat hA hF hty
    simp only [P000.sendMessage, hA]
    by_cases ht : (jsTrim st.newMessage == "") = true
    · rw [if_pos ht]
    · rw [if_neg ht]
      try dsimp only
      rw [hF]
      try dsimp only
      rw [if_neg (show ¬((chat.type == CType.ai) = true) by rw [hty]; decide)]
  · intro rt r p st
    refine forall₂_map_left _ _ st.chats fun c _ => ?_
    by_cases h : (c.id == p.chatId) = true
    · rw [if_pos h]
      refine ⟨fun hne => absurd (beq_iff_eq.mp h) hne, fun _ => ⟨rfl, ?_⟩⟩
      rw [List.countP_append]
      have h1 : (List.countP (fun m => m.sender == Sender.ai) [P000.mkAiReply rt r p]) = 1 := by
        simp [List.countP_cons, P000.mkAiReply]
      rw [h1]
    · rw [if_neg h]
      exact ⟨fun _ => rfl, fun he => absurd (beq_iff_eq.mpr he) h⟩
  · intro rt r p st x
    rfl
  · intro now text st p h
    cases hA : st.activeChat with
    | none => simp [Routes.handleSendMessage, hA] at h
    | some a =>
      simp only [Routes.handleSendMessage, hA] at h
      try dsimp only at h
      cases hF : st.chats.find? fun c => c.id == a with
      | none => rw [hF] at h; simp at h
      | some chat =>
        rw [hF] at h
        try dsimp only at h
        by_cases hty : (chat.type == CType.ai) = true
        · rw [if_pos hty] at h
          try dsimp only at h
          have hp := Option.some.inj h
          have hpc : p.chatId = a := by rw [← hp]
          have hpu : p.userMsg.sender = Sender.user := by rw [← hp]
          have hq : (chat.id == a) = true := by simpa using List.find?_some hF
          refine ⟨by rw [hpc], hpu, chat, List.mem_of_find?_eq_some hF, ?_, ?_⟩
          · rw [hpc]
            exact beq_iff_eq.mp hq
          · exact beq_iff_eq.mp hty
        · rw [if_neg hty] at h
          simp at h
  · intro now text st a chat hA hne hF hty
    rw [Routes.handleSend, if_neg fun hc => hne (beq_iff_eq.mp hc)]
    refine ⟨{ chatId := a,
              userMsg := { id := toString now, text := jsTrim text, sender := .user,
                           timestamp := now, status := .sent },
              text := jsTrim text }, ?_, rfl⟩
    simp only [Routes.handleSendMessage, hA]
    try dsimp only
    rw [hF]
    try dsimp only
    rw [if_pos (beq_iff_eq.mpr hty)]
  · intro now text st a chat hA hF hty
    simp only [Routes.handleSendMessage, hA]
    try dsimp only
    rw [hF]
    try dsimp only
    rw [if_neg (show ¬((chat.type == CType.ai) = true) by rw [hty]; decide)]
  · intro rt r p st hu
    have hself :
        recGet (Routes.resolveReply rt r p st).messages p.chatId =
          some ((recGet st.messages p.chatId).getD [] ++
            [p.userMsg, Routes.mkAiMessage rt r p]) := by
      simp only [Routes.resolveReply]
      exact recGet_recSet_self _ _ _
    refine ⟨by rw [hself, Option.getD_some], ?_, ?_⟩
    · rw [hself, Option.getD_some, List.countP_append]
      have h1 : (List.countP (fun m => m.sender == Sender.ai)
          [p.userMsg, Routes.mkAiMessage rt r p]) = 1 := by
        simp [List.countP_cons, Routes.mkAiMessage, hu]
      rw [h1]
    · intro k hk
      simp only [Routes.resolveReply]
      exact recGet_recSet_ne _ _ _ _ hk
  · intro rt r p st x
    rfl

/-- A part_000 state with AI chat "1" active and "hi" typed. -/
def c1SendState : P000.AppState :=
  { chats := P000.mockChats 0, activeChat := some "1", newMessage := "hi" }

/-- The first part_000 seed chat (at load instant 0). -/
def c1P000Chat : P000.Chat :=
  { id := "1", name := "AI Assistant", type := .ai, avatar := "🤖",
    isOnline := true, unreadCount := 0, lastMessage := none,
    messages := [
      { id := "1",
        text := "Hello! I\x27m your AI assistant. How can I help you today?",
        timestamp := -60000, sender := .ai, isRead := true } ] }

/-- The first routes seed chat. -/
def c1RoutesChat : Routes.Chat :=
  { id := "1", name := "AI Assistant", type := .ai, avatar := "ü§ñ",
    unreadCount := 0, isOnline := true, lastMessage := none }

/-- Witness for C1 at concrete inputs: a non-blank send into AI chat "1"
schedules a reply carrying that chat id, in both implementations. -/
theorem reply_attachment_witness :
    ((P000.sendMessage 100 c1SendState).2 = some { chatId := "1", userText := "hi" }) ∧
    (∃ p, (Routes.handleSend 10 "hey" c6State).2 = some p ∧ p.chatId = "1") := by
  constructor
  · exact reply_attachment.2.1 100 c1SendState "1" c1P000Chat rfl
      (by decide) (by decide) rfl
  · exact reply_attachment.2.2.2.2.2.2.1 10 "hey" c6State "1" c1RoutesChat rfl
      (by decide) (by decide) rfl

/-- Reviving what was serialized from a message recovers the message
exactly, timestamp included (millisecond-precise by the `jtime` model). -/
theorem reviveMessage_toJson (m : P000.Message) :
    P000.reviveMessage (P000.Message.toJson m) = .ok m := by
  cases m with
  | mk id text ts sender isRead => cases sender <;> rfl

theorem reviveMessages_map_toJson (l : List P000.Message) :
    P000.reviveMessages (l.map P000.Message.toJson) = .ok l := by
  induction l with
  | nil => rfl
  | cons m rest ih => simp [P000.reviveMessages, reviveMessage_toJson, ih]

/-- The dynamic shape a serialized chat comes back as in part_000's load:
messages revived exactly, a stored `lastMessage` kept as raw JSON. -/
def P000.Chat.loaded (c : P000.Chat) : P000.LoadedChat :=
  { id := c.id, name := c.name, type := c.type, avatar := c.avatar,
    isOnline := c.isOnline, unreadCount := c.unreadCount,
    messages := c.messages,
    lastMessage := c.lastMessage.map P000.Message.toJson }

theorem reviveChat_toJson (c : P000.Chat) :
    P000.reviveChat (P000.Chat.toJson c) = .ok c.loaded := by
  have hnat : ∀ u : Nat, ((u : Int)).toNat' = some u := fun u => rfl
  cases c with
  | mk id name ty avatar lastMessage messages isOnline unreadCount =>
    cases ty <;> cases lastMessage <;>
      simp [P000.reviveChat, P000.Chat.toJson, P000.Chat.loaded, jGet, List.find?,
        reviveMessages_map_toJson, decodeCType, ctypeToJson, hnat]

theorem reviveChatList_map_toJson (l : List P000.Chat) :
    P000.reviveChatList (l.map P000.Chat.toJson) = .ok (l.map P000.Chat.loaded) := by
  induction l with
  | nil => rfl
  | cons c rest ih => simp [P000.reviveChatList, reviveChat_toJson, ih]

/-- Round trip of the part_000 persistence pair: loading what the save
effect wrote reproduces every chat (ids, names, kinds, counters) with its
message list identical to the original — order, ids, texts, senders, read
markers and millisecond timestamps all preserved; only the derived
`lastMessage` cache comes back as raw JSON rather than a revived value. -/
theorem p000_load_of_save (t0 : Int) (chats : List P000.Chat) :
    P000.chatAppInit t0 (P000.saveChats chats) = .ok (chats.map P000.Chat.loaded) :=
  reviveChatList_map_toJson chats

/-- Witness for C8 at concrete inputs: the empty query returns the seed
chat lists unchanged. -/
theorem filteredChats_spec_witness :
    P000.filteredChats "" (P000.mockChats 0) = P000.mockChats 0 ∧
    Routes.filteredChats "" Routes.mockChats = Routes.mockChats :=
  ⟨filteredChats_spec.1 (P000.mockChats 0), filteredChats_spec.2.2.2.1 Routes.mockChats⟩

/-- Witness for C9 at a concrete input: a send leaves every unread
counter unchanged. -/
theorem p000_unread_never_incremented_witness :
    List.Forall₂ (fun c2 c => c2.unreadCount = c.unreadCount)
      ((P000.sendMessage 100 c1SendState).1).chats c1SendState.chats :=
  p000_unread_never_incremented.2.2.1 100 c1SendState

/-- Witness for C10 at a concrete input: the mark-read part of selecting
chat "1" only zeroes that chat's unread counter. -/
theorem markAsRead_frame_witness :
    List.Forall₂ (fun c2 c =>
      (c.id ≠ "1" → c2 = c) ∧ (c.id = "1" → c2 = { c with unreadCount := 0 }))
      (Routes.handleChatSelect "1" c5State).chats c5State.chats :=
  (markAsRead_frame.2 c5State "1").2.2
